import Mathlib

/-!
Shallow embedding of the airport lookup and search engine of
`packages/shared-sdk/python/aviation/airports.py` and the haversine distance
functions of `packages/shared-sdk/python/aviation/navigation.py`.

Modelling conventions:
* Python floats are modelled as elements of a linear ordered field `α`
  (instantiated with `ℝ` for the trigonometric distance functions and with
  `ℚ` for concrete evaluations); machine floating point rounding is not
  modelled.
* Python strings are Lean `String`s; the string primitives used by the code
  (`strip`, `upper`, `lower`, `startswith`, `in`, `split`, `sorted`, `join`)
  are given structural implementations on `List Char` below so that concrete
  evaluation is possible, each matching CPython behaviour on the ASCII data
  the engine handles.
* A raw dataset entry is a JSON object with heterogeneous fields; the fields
  read by the code are carried explicitly, string-typed fields as
  `Option String` (`none` = key absent / JSON null) and coordinate fields as
  `Option PyVal` so that Python truthiness (`x or y`) and `float(...)`
  conversion can be modelled.
* `difflib.SequenceMatcher(None, a, b).ratio()` is an external standard
  library collaborator; it is modelled as an explicit function parameter
  `ratio : String → String → α`, whose documented contract is that its
  values lie in `[0, 1]`.
* `self._haversine_nm` is likewise passed to the generic search pipeline as
  a parameter `distFn` so that the pipeline stays evaluable over `ℚ`; the
  real model instantiates it with `haversine_nm` below.
-/

namespace Aviation

/-- A Python runtime value as far as `_to_float` / truthiness are concerned:
a number, a string (carrying the result that `float(...)` would produce on
it, `none` when `float` raises), or `None`. -/
inductive PyVal (α : Type) where
  | pnum (x : α)
  | pstr (s : String) (conv : Option α)
  | pnull
deriving DecidableEq

/-- Python truthiness of a `PyVal` (`bool(v)`): numbers are truthy iff
nonzero, strings iff nonempty, `None` is falsy. -/
def truthy {α : Type} [DecidableEq α] [OfNat α 0] : PyVal α → Bool
  | .pnum x => decide ¬x = 0
  | .pstr s _ => decide ¬s = ""
  | .pnull => false

/-- `AirportDatabase._to_float`: convert a value to float, `None` if invalid. -/
def to_float {α : Type} : PyVal α → Option α
  | .pnum x => some x
  | .pstr _ conv => conv
  | .pnull => none

/-- Python `a or b` for two optional dictionary values (`airport.get(k)`),
where a missing key reads as `None`. -/
def py_or {α : Type} [DecidableEq α] [OfNat α 0] (a b : Option (PyVal α)) : PyVal α :=
  match a with
  | some v => if truthy v then v else b.getD .pnull
  | none => b.getD .pnull

/-- Python `a or b` for a string-typed dictionary value with a string
default: the value if present and nonempty, otherwise the default. -/
def str_or (a : Option String) (d : String) : String :=
  match a with
  | some s => if s = "" then d else s
  | none => d

/-- Python `s.upper()` (ASCII). -/
def str_upper (s : String) : String := String.mk (s.data.map Char.toUpper)

/-- Python `s.lower()` (ASCII). -/
def str_lower (s : String) : String := String.mk (s.data.map Char.toLower)

/-- Python `s.startswith(p)`. -/
def str_starts (s p : String) : Bool := p.data.isPrefixOf s.data

/-- Helper for substring containment: `needle` occurs in `hay`. -/
def contains_aux (needle : List Char) : List Char → Bool
  | [] => needle.isEmpty
  | hay@(_ :: rest) => needle.isPrefixOf hay || contains_aux needle rest

/-- Python `p in s` (substring containment). -/
def str_contains (s p : String) : Bool := contains_aux p.data s.data

/-- Python `s.strip()`: remove leading and trailing whitespace. -/
def str_trim (s : String) : String :=
  String.mk (((s.data.dropWhile Char.isWhitespace).reverse.dropWhile
    Char.isWhitespace).reverse)

/-- Python `s[n:]`. -/
def str_drop (s : String) (n : ℕ) : String := String.mk (s.data.drop n)

/-- Python `len(s)`. -/
def str_len (s : String) : ℕ := s.data.length

/-- Helper for `s.split()`: cut a character list at whitespace runs. -/
def split_ws_aux : List Char → List Char → List String
  | [], acc => if acc = [] then [] else [String.mk acc.reverse]
  | c :: cs, acc =>
    if c.isWhitespace then
      (if acc = [] then [] else [String.mk acc.reverse]) ++ split_ws_aux cs []
    else split_ws_aux cs (c :: acc)

/-- Python `s.split()` (split on whitespace runs, no empty pieces). -/
def split_ws (s : String) : List String := split_ws_aux s.data []

/-- Code-point lexicographic `<` on strings, as CPython compares strings. -/
def str_ltb : List Char → List Char → Bool
  | [], [] => false
  | [], _ :: _ => true
  | _ :: _, [] => false
  | a :: as, b :: bs =>
    if a.val < b.val then true
    else if b.val < a.val then false
    else str_ltb as bs

/-- Insert a string into an ascending list (by code-point order). -/
def insert_sorted (s : String) : List String → List String
  | [] => [s]
  | t :: rest => if str_ltb s.data t.data then s :: t :: rest else t :: insert_sorted s rest

/-- Python `sorted(xs)` for a list of distinct strings: ascending by
code-point order (on distinct elements every correct sort agrees with
CPython's). -/
def sort_strings (l : List String) : List String := l.foldr insert_sorted []

/-- Python `" ".join(xs)`. -/
def join_space : List String → String
  | [] => ""
  | [s] => s
  | s :: rest => s ++ " " ++ join_space rest

/-- A raw dataset entry (one JSON object of `airports_cache.json`), carrying
exactly the keys the engine reads. `geomCoords = some l` models the case
where `"geometry"` is present, is a dict, and its `"coordinates"` value is
the list `l`; every other shape of `"geometry"` is `none`. -/
structure RawAirport (α : Type) where
  geomCoords : Option (List (PyVal α)) := none
  lat : Option (PyVal α) := none
  latitude : Option (PyVal α) := none
  lon : Option (PyVal α) := none
  longitude : Option (PyVal α) := none
  icao : Option String := none
  icaoCode : Option String := none
  iata : Option String := none
  iataCode : Option String := none
  name : Option String := none
  city : Option String := none
  country : Option String := none
  elevation : Option (PyVal α) := none
  type : Option String := none
deriving DecidableEq

/-- The canonical Airport record built by the engine. `name` is
`Option String` because the lookup path copies the raw `name` value without
defaulting it, so it can be `None`; `city`, `country`, `type` are always
strings. -/
structure Airport (α : Type) where
  icao : String
  iata : String
  name : Option String
  city : String
  country : String
  latitude : α
  longitude : α
  elevation : Option (PyVal α)
  type : String
  distance_nm : Option α
deriving DecidableEq

variable {α : Type} [LinearOrderedField α]

/-- `AirportDatabase._load_airports` as seen through `self.airports`: on a
readable source the parsed list is stored unchanged, on any read/parse
failure the exception is swallowed and `self.airports` is set to `[]`. -/
def load_airports (raw : Option (List (RawAirport α))) : List (RawAirport α) :=
  match raw with
  | some l => l
  | none => []

/-- `AirportDatabase._normalize_airport_code`: extract the leading airport
code from a user-provided string (`"KPAO - Palo Alto Airport"` gives
`"KPAO"`). -/
def normalize_airport_code (value : String) : String :=
  if value = "" then ""
  else
    let stripped := str_trim value
    let before_dash :=
      String.mk (stripped.data.takeWhile fun c => !(c = '-' || c = '–' || c = '—'))
    let t := str_trim before_dash
    let token := if t = "" then "" else (split_ws t).headD ""
    let token_u := str_upper token
    if 3 ≤ str_len token_u ∧ str_len token_u ≤ 5 ∧
        token_u.data.all (fun c => ('A' ≤ c ∧ c ≤ 'Z') ∨ ('0' ≤ c ∧ c ≤ '9')) then
      token_u
    else str_upper stripped

/-- `AirportDatabase._candidate_codes`: the normalized code itself, plus the
`K`-prefixed variant for short US identifiers, plus the `K`-stripped variant
for `K`-prefixed codes. The three parts are pairwise distinct, so the list
has the same elements as the Python set. -/
def candidate_codes (code_u : String) : List String :=
  [code_u]
    ++ (if ¬code_u = "" ∧ ¬str_starts code_u "K" ∧
          (str_len code_u = 3 ∨
            (3 ≤ str_len code_u ∧ str_len code_u ≤ 4 ∧
              code_u.data.any Char.isDigit)) then
          ["K" ++ code_u] else [])
    ++ (if str_starts code_u "K" ∧ 4 ≤ str_len code_u ∧ str_len code_u ≤ 5 then
          [str_drop code_u 1] else [])

/-- `AirportDatabase._extract_lat_lon`: GeoJSON `geometry.coordinates`
(`[lon, lat]`) first, then the direct `lat`/`latitude` and
`lon`/`longitude` fields. -/
def extract_lat_lon (r : RawAirport α) : Option α × Option α :=
  match r.geomCoords with
  | some (lonV :: latV :: []) => (to_float latV, to_float lonV)
  | _ =>
    (to_float (py_or r.lat r.latitude), to_float (py_or r.lon r.longitude))

/-- The upper-cased ICAO code of a raw entry:
`(airport.get("icao") or airport.get("icaoCode") or "").upper()`. -/
def icao_of (r : RawAirport α) : String := str_upper (str_or r.icao (str_or r.icaoCode ""))

/-- The upper-cased IATA code of a raw entry:
`(airport.get("iata") or airport.get("iataCode") or "").upper()`. -/
def iata_of (r : RawAirport α) : String := str_upper (str_or r.iata (str_or r.iataCode ""))

/-- The linear scan of `AirportDatabase.get_airport_coordinates`: first
record whose ICAO or IATA code is among the candidates and whose
coordinates resolve. Note that the `"name"` value is copied as is (it is
not defaulted to `""`). -/
def lookup_scan (cands : List String) : List (RawAirport α) → Option (Airport α)
  | [] => none
  | r :: rest =>
    if icao_of r ∈ cands ∨ iata_of r ∈ cands then
      match extract_lat_lon r with
      | (some lat_v, some lon_v) =>
        some { icao := icao_of r, iata := iata_of r, name := r.name,
               city := str_or r.city "", country := str_or r.country "",
               latitude := lat_v, longitude := lon_v,
               elevation := r.elevation, type := str_or r.type "",
               distance_nm := none }
      | _ => lookup_scan cands rest
    else lookup_scan cands rest

/-- `AirportDatabase.get_airport_coordinates`: normalize, expand to
candidate codes, scan the snapshot. -/
def get_airport_coordinates (snapshot : List (RawAirport α)) (code : String) :
    Option (Airport α) :=
  lookup_scan (candidate_codes (normalize_airport_code code)) snapshot

/-- `math.radians`. -/
noncomputable def radians (x : ℝ) : ℝ := x * Real.pi / 180

/-- `math.atan2 y x` (two-argument arctangent with quadrant handling). -/
noncomputable def atan2 (y x : ℝ) : ℝ :=
  if 0 < x then Real.arctan (y / x)
  else if x < 0 then
    (if 0 ≤ y then Real.arctan (y / x) + Real.pi else Real.arctan (y / x) - Real.pi)
  else if 0 < y then Real.pi / 2
  else if y < 0 then -(Real.pi / 2)
  else 0

/-- The intermediate value `a` of the haversine formula, exactly as written
in `AirportDatabase._haversine_nm` and `navigation.haversine_distance`:
`sin(dphi/2)**2 + cos(phi1)*cos(phi2)*sin(dlambda/2)**2`. -/
noncomputable def hav_a (lat1 lon1 lat2 lon2 : ℝ) : ℝ :=
  Real.sin (radians (lat2 - lat1) / 2) ^ 2 +
    Real.cos (radians lat1) * Real.cos (radians lat2) *
      Real.sin (radians (lon2 - lon1) / 2) ^ 2

/-- Haversine great-circle distance for an Earth radius `R`:
`R * 2 * atan2(sqrt(a), sqrt(1 - a))`. Note that the argument `1 - a` of
the inner square root is used as computed, without any clamping. -/
noncomputable def haversine_radius (R lat1 lon1 lat2 lon2 : ℝ) : ℝ :=
  R * (2 * atan2 (Real.sqrt (hav_a lat1 lon1 lat2 lon2))
        (Real.sqrt (1 - hav_a lat1 lon1 lat2 lon2)))

/-- `AirportDatabase._haversine_nm`: haversine distance in nautical miles. -/
noncomputable def haversine_nm (lat1 lon1 lat2 lon2 : ℝ) : ℝ :=
  haversine_radius 3440.065 lat1 lon1 lat2 lon2

/-- The `unit` argument of `navigation.haversine_distance`. -/
inductive DistUnit where
  | NM
  | KM
  | MI
  | METERS
deriving DecidableEq

/-- The Earth-radius constants of `navigation.py` selected by unit. -/
noncomputable def radius_map : DistUnit → ℝ
  | .NM => 3440.065
  | .KM => 6371.0
  | .MI => 3958.8
  | .METERS => 6371000.0

/-- `navigation.haversine_distance`: haversine distance in the chosen unit. -/
noncomputable def haversine_distance (lat1 lon1 lat2 lon2 : ℝ) (unit : DistUnit) : ℝ :=
  haversine_radius (radius_map unit) lat1 lon1 lat2 lon2

variable [FloorRing α]

/-- Python `round(x, 2)` (round half to even, two decimal places). -/
def round2 (x : α) : α :=
  let f : ℤ := ⌊x * 100⌋
  if x * 100 - f < 1 / 2 then (f : α) / 100
  else if (1 : α) / 2 < x * 100 - f then ((f + 1 : ℤ) : α) / 100
  else if f % 2 = 0 then (f : α) / 100
  else ((f + 1 : ℤ) : α) / 100

/-- `code_hay` of `search_airports`:
`" ".join(sorted({icao_code, iata_code, *alt_codes})).lower()`. -/
def code_hay_of (icao_code iata_code : String) (alt_codes : List String) : String :=
  str_lower (join_space (sort_strings ((icao_code :: iata_code :: alt_codes).dedup)))

/-- `text_hay` of `search_airports`:
`f"{code_hay} {name} {city} {country}".lower()`. -/
def text_hay_of (icao_code iata_code : String) (alt_codes : List String)
    (name city country : String) : String :=
  str_lower (code_hay_of icao_code iata_code alt_codes ++ " " ++ name ++ " " ++
    city ++ " " ++ country)

/-- The tiered text scorer of `search_airports` (lines 290-317), for a
non-empty lower-cased query `q`; `none` models the `continue` that excludes
a record whose best fuzzy ratio is below 0.6. `ratio a b` models
`difflib.SequenceMatcher(None, a, b).ratio()`. -/
def text_score (ratio : String → String → α) (q icao_code iata_code : String)
    (alt_codes : List String) (name city country : String) : Option α :=
  if q ∈ ((icao_code :: iata_code :: alt_codes).dedup.filter
      (fun c => decide (¬c = ""))).map str_lower then some 1
  else if str_starts (str_lower icao_code) q then some (95 / 100)
  else if str_starts (str_lower iata_code) q then some (9 / 10)
  else if str_contains (code_hay_of icao_code iata_code alt_codes) q = true then
    some (85 / 100)
  else if str_contains (text_hay_of icao_code iata_code alt_codes name city country) q =
      true then
    some (65 / 100)
  else
    let r := max (max (ratio q (str_lower icao_code)) (ratio q (str_lower iata_code)))
      (ratio q (str_lower name))
    if r < 6 / 10 then none
    else some (1 / 2 + (r - 6 / 10) * (1 / 2))

/-- The `normalized` Airport dict built inside the loop of
`search_airports` (lines 265-275), before `distance_nm` is attached. -/
def mk_normalized (r : RawAirport α) (lat_v lon_v : α) : Airport α :=
  { icao := icao_of r, iata := iata_of r, name := some (str_or r.name ""),
    city := str_or r.city "", country := str_or r.country "",
    latitude := lat_v, longitude := lon_v, elevation := r.elevation,
    type := str_or r.type "", distance_nm := none }

/-- The dedup key of `search_airports` (lines 278-282): ICAO if nonempty,
else IATA if nonempty, else the coordinate pair (which CPython renders as
the string `f"{lat},{lon}"`; distinct pairs give distinct strings, so the
pair itself is kept here). -/
def dedup_key (a : Airport α) : String ⊕ α × α :=
  if ¬a.icao = "" then Sum.inl a.icao
  else if ¬a.iata = "" then Sum.inl a.iata
  else Sum.inr (a.latitude, a.longitude)

/-- The dedup key computed directly from a raw record; meaningful for
records whose coordinates resolve (the only ones that reach the dedup
step). -/
def key_raw (r : RawAirport α) : String ⊕ α × α :=
  match extract_lat_lon r with
  | (some lat_v, some lon_v) => dedup_key (mk_normalized r lat_v lon_v)
  | _ => Sum.inl ""

/-- `dist_nm` of the loop: the distance to the reference point when both
reference coordinates are given. -/
def dist_of (distFn : α → α → α → α → α) (latitude longitude : Option α)
    (lat_v lon_v : α) : Option α :=
  match latitude, longitude with
  | some la, some lo => some (distFn la lo lat_v lon_v)
  | _, _ => none

/-- A record survives the coordinate and radius filters of the loop
(lines 253-262): its coordinates resolve, and when a reference point and a
radius are both given its distance does not exceed the radius. -/
def passes (distFn : α → α → α → α → α) (latitude longitude radius_nm : Option α)
    (r : RawAirport α) : Bool :=
  match extract_lat_lon r with
  | (some lat_v, some lon_v) =>
    match dist_of distFn latitude longitude lat_v lon_v, radius_nm with
    | some d, some rad => !decide (rad < d)
    | _, _ => true
  | _ => false

/-- The score of the loop: `0.0` when no query text is given, otherwise the
tiered text score, with the candidate codes expanded from the record's
ICAO. -/
def record_score (ratio : String → String → α) (q : String) (r : RawAirport α) :
    Option α :=
  if q = "" then some 0
  else
    text_score ratio q (icao_of r) (iata_of r) (candidate_codes (icao_of r))
      (str_or r.name "") (str_or r.city "") (str_or r.country "")

/-- The candidate triple `(score, dist_nm or inf, normalized)` appended for
a record that survives filtering and scoring (line 323), with
`distance_nm` rounded to 2 decimals attached when a reference point was
given (lines 320-321); `none` when the fuzzy tier excludes the record. -/
def cand_of (distFn : α → α → α → α → α) (ratio : String → String → α) (q : String)
    (latitude longitude : Option α) (r : RawAirport α) :
    Option (α × WithTop α × Airport α) :=
  match extract_lat_lon r with
  | (some lat_v, some lon_v) =>
    match record_score ratio q r with
    | none => none
    | some score =>
      some (score,
        (match dist_of distFn latitude longitude lat_v lon_v with
         | some d => (d : WithTop α)
         | none => ⊤),
        { mk_normalized r lat_v lon_v with
            distance_nm := (dist_of distFn latitude longitude lat_v lon_v).map round2 })
  | _ => none

/-- Membership of a dedup key in the `seen` set. -/
def mem_keys (k : String ⊕ α × α) (seen : List (String ⊕ α × α)) : Bool :=
  seen.any (fun s => decide (s = k))

/-- The candidate-building loop of `search_airports` (lines 245-323): scan
the snapshot in order, drop records failing the coordinate or radius
filters, keep only the first record per dedup key (a key is claimed before
the fuzzy filter can still drop its record), and collect the surviving
`(score, distance-or-infinity, normalized)` triples. -/
def build_candidates (distFn : α → α → α → α → α) (ratio : String → String → α)
    (q : String) (latitude longitude radius_nm : Option α) :
    List (RawAirport α) → List (String ⊕ α × α) → List (α × WithTop α × Airport α)
  | [], _ => []
  | r :: rest, seen =>
    if passes distFn latitude longitude radius_nm r then
      if mem_keys (key_raw r) seen then
        build_candidates distFn ratio q latitude longitude radius_nm rest seen
      else
        match cand_of distFn ratio q latitude longitude r with
        | none => build_candidates distFn ratio q latitude longitude radius_nm rest
            (key_raw r :: seen)
        | some t => t :: build_candidates distFn ratio q latitude longitude radius_nm rest
            (key_raw r :: seen)
    else build_candidates distFn ratio q latitude longitude radius_nm rest seen

/-- The proximity-only comparator (line 328): ascending by stored distance. -/
def dist_le (t u : α × WithTop α × Airport α) : Bool := decide (t.2.1 ≤ u.2.1)

/-- The text/combined comparator (line 331): Python's ascending sort on the
key `(-score, dist)`, that is descending score, ties broken by ascending
distance with a missing distance stored as `float("inf")`. -/
def rank_le (t u : α × WithTop α × Airport α) : Bool :=
  decide (u.1 < t.1 ∨ (t.1 = u.1 ∧ t.2.1 ≤ u.2.1))

/-- The fully sorted candidate list of `search_airports` (lines 326-331):
proximity-only queries sort ascending by distance, any query with text
sorts by descending score then ascending distance. Python's `list.sort` is
a stable merge sort, as is `List.mergeSort`. -/
def search_sorted (distFn : α → α → α → α → α) (ratio : String → String → α)
    (snapshot : List (RawAirport α)) (query : Option String)
    (latitude longitude radius_nm : Option α) : List (α × WithTop α × Airport α) :=
  let q := str_lower (str_trim (query.getD ""))
  let cands := build_candidates distFn ratio q latitude longitude radius_nm snapshot []
  if (latitude.isSome ∧ longitude.isSome) ∧ q = "" then cands.mergeSort dist_le
  else cands.mergeSort rank_le

/-- `AirportDatabase.search_airports`: empty result when neither a
non-blank query nor a full reference point is supplied, otherwise the
sorted candidate list truncated to `limit` after sorting, projected to the
Airport records. -/
def search_airports (distFn : α → α → α → α → α) (ratio : String → String → α)
    (snapshot : List (RawAirport α)) (query : Option String) (limit : ℕ)
    (latitude longitude radius_nm : Option α) : List (Airport α) :=
  let q := str_lower (str_trim (query.getD ""))
  if q = "" ∧ ¬(latitude.isSome ∧ longitude.isSome) then []
  else
    ((search_sorted distFn ratio snapshot query latitude longitude radius_nm).take
      limit).map (fun t => t.2.2)

/-- A raw entry has resolvable coordinates. -/
def has_coords (r : RawAirport α) : Bool :=
  (extract_lat_lon r).1.isSome && (extract_lat_lon r).2.isSome

omit [FloorRing α] in
lemma lookup_scan_filter_coords (cands : List String) (l : List (RawAirport α)) :
    lookup_scan cands (l.filter has_coords) = lookup_scan cands l := by
  induction l with
  | nil => rfl
  | cons r rest ih =>
    by_cases hc : has_coords r = true
    · rw [List.filter_cons, if_pos hc]
      rcases hE : extract_lat_lon r with ⟨la, lo⟩
      rcases la with _ | lav
      · simp [has_coords, hE] at hc
      rcases lo with _ | lov
      · simp [has_coords, hE] at hc
      unfold lookup_scan
      rw [hE]
      by_cases hm : icao_of r ∈ cands ∨ iata_of r ∈ cands
      · rw [if_pos hm, if_pos hm]
      · rw [if_neg hm, if_neg hm]
        exact ih
    · rw [List.filter_cons, if_neg hc, ih]
      rcases hE : extract_lat_lon r with ⟨la, lo⟩
      have hnone : la = none ∨ lo = none := by
        rcases la with _ | lav
        · exact Or.inl rfl
        rcases lo with _ | lov
        · exact Or.inr rfl
        · simp [has_coords, hE] at hc
      conv_rhs => unfold lookup_scan
      rw [hE]
      by_cases hm : icao_of r ∈ cands ∨ iata_of r ∈ cands
      · rw [if_pos hm]
        rcases hnone with h | h
        · subst h; rfl
        · subst h; rcases la with _ | lav <;> rfl
      · rw [if_neg hm]

omit [FloorRing α] in
lemma passes_of_not_has_coords (distFn : α → α → α → α → α)
    (latitude longitude radius_nm : Option α) (r : RawAirport α)
    (hc : ¬has_coords r = true) :
    passes distFn latitude longitude radius_nm r = false := by
  unfold passes
  rcases hE : extract_lat_lon r with ⟨la, lo⟩
  rcases la with _ | lav
  · rfl
  rcases lo with _ | lov
  · rfl
  · simp [has_coords, hE] at hc

lemma build_candidates_filter_coords (distFn : α → α → α → α → α)
    (ratio : String → String → α) (q : String)
    (latitude longitude radius_nm : Option α) (l : List (RawAirport α)) :
    ∀ seen, build_candidates distFn ratio q latitude longitude radius_nm
        (l.filter has_coords) seen =
      build_candidates distFn ratio q latitude longitude radius_nm l seen := by
  induction l with
  | nil => intro seen; rfl
  | cons r rest ih =>
    intro seen
    by_cases hc : has_coords r = true
    · rw [List.filter_cons, if_pos hc]
      unfold build_candidates
      by_cases hp : passes distFn latitude longitude radius_nm r = true
      · rw [if_pos hp, if_pos hp]
        by_cases hk : mem_keys (key_raw r) seen = true
        · rw [if_pos hk, if_pos hk]; exact ih seen
        · rw [if_neg hk, if_neg hk]
          cases cand_of distFn ratio q latitude longitude r with
          | none => exact ih _
          | some t => rw [ih _]
      · rw [if_neg hp, if_neg hp]; exact ih seen
    · rw [List.filter_cons, if_neg hc]
      conv_rhs => unfold build_candidates
      rw [if_neg (by simp [passes_of_not_has_coords distFn latitude longitude radius_nm r hc])]
      exact ih seen

/-- Claim C1, counterexample to the claim as stated: a raw entry whose
latitude and longitude do not resolve. -/
def c1_entry : RawAirport ℚ := {}

/-- Claim C1 (as stated, refuted): loading does not drop entries lacking
resolvable coordinates — an entry whose latitude cannot be resolved is
still a member of the loaded snapshot. -/
theorem c1_counterexample :
    (extract_lat_lon c1_entry).1 = none ∧ c1_entry ∈ load_airports (some [c1_entry]) :=
  ⟨rfl, List.mem_singleton.mpr rfl⟩

/-- Claim C1 (amended): entries lacking resolvable coordinates stay in the
loaded snapshot, but every query skips them — lookup and search return
exactly the same results on the snapshot and on its restriction to records
with resolvable coordinates, so no query result is ever derived from a
record without valid latitude/longitude. -/
theorem c1_queries_skip_unresolvable {α : Type} [LinearOrderedField α] [FloorRing α]
    (raw : List (RawAirport α)) (code : String) (distFn : α → α → α → α → α)
    (ratio : String → String → α) (query : Option String) (limit : ℕ)
    (latitude longitude radius_nm : Option α) :
    get_airport_coordinates ((load_airports (some raw)).filter has_coords) code =
      get_airport_coordinates (load_airports (some raw)) code ∧
    search_airports distFn ratio ((load_airports (some raw)).filter has_coords)
        query limit latitude longitude radius_nm =
      search_airports distFn ratio (load_airports (some raw)) query limit latitude
        longitude radius_nm := by
  constructor
  · exact lookup_scan_filter_coords _ _
  · unfold search_airports search_sorted
    simp only [build_candidates_filter_coords]

/-- Claim C9: an unreadable source yields an empty snapshot rather than an
exception, and every query on it then reports "no match": lookup returns
`none` and search returns `[]` for all arguments. -/
theorem c9_load_failure_degrades_to_empty {α : Type} [LinearOrderedField α] [FloorRing α] :
    load_airports (none : Option (List (RawAirport α))) = [] ∧
    (∀ code, get_airport_coordinates
      (load_airports (none : Option (List (RawAirport α)))) code = none) ∧
    (∀ (distFn : α → α → α → α → α) (ratio : String → String → α)
      (query : Option String) (limit : ℕ) (latitude longitude radius_nm : Option α),
      search_airports distFn ratio (load_airports none) query limit latitude
        longitude radius_nm = []) := by
  refine ⟨rfl, fun code => rfl, fun distFn ratio query limit latitude longitude radius_nm => ?_⟩
  simp only [search_airports, search_sorted, load_airports, build_candidates]
  split
  · rfl
  · split <;> simp

/-- Claim C7: exact characterization of the candidate-code set — the
normalized code itself; the `K`-prefixed variant exactly when the code does
not start with `K` and is 3 characters long, or 3-4 characters with a
digit; the `K`-stripped variant exactly when the code starts with `K` and
is 4-5 characters long; and nothing else. -/
theorem c7_candidate_codes_exact (c x : String) :
    x ∈ candidate_codes c ↔
      (x = c ∨
        (x = "K" ++ c ∧ ¬str_starts c "K" = true ∧
          (str_len c = 3 ∨
            (3 ≤ str_len c ∧ str_len c ≤ 4 ∧ c.data.any Char.isDigit = true))) ∨
        (x = str_drop c 1 ∧ str_starts c "K" = true ∧
          4 ≤ str_len c ∧ str_len c ≤ 5)) := by
  have hPne :
      (str_len c = 3 ∨ (3 ≤ str_len c ∧ str_len c ≤ 4 ∧ c.data.any Char.isDigit = true)) →
        ¬c = "" := by
    intro hl hc
    subst hc
    revert hl
    decide
  by_cases hA : ¬c = "" ∧ ¬str_starts c "K" = true ∧
      (str_len c = 3 ∨ (3 ≤ str_len c ∧ str_len c ≤ 4 ∧ c.data.any Char.isDigit = true))
  · by_cases hB : str_starts c "K" = true ∧ 4 ≤ str_len c ∧ str_len c ≤ 5
    · rw [candidate_codes, if_pos hA, if_pos hB]
      simp only [List.mem_append, List.mem_singleton, List.not_mem_nil, or_false, false_or]
      tauto
    · rw [candidate_codes, if_pos hA, if_neg hB]
      simp only [List.mem_append, List.mem_singleton, List.not_mem_nil, or_false, false_or]
      tauto
  · have hA2 : ¬(¬str_starts c "K" = true ∧
        (str_len c = 3 ∨ (3 ≤ str_len c ∧ str_len c ≤ 4 ∧ c.data.any Char.isDigit = true))) :=
      fun hp => hA ⟨hPne hp.2, hp.1, hp.2⟩
    by_cases hB : str_starts c "K" = true ∧ 4 ≤ str_len c ∧ str_len c ≤ 5
    · rw [candidate_codes, if_neg hA, if_pos hB]
      simp only [List.mem_append, List.mem_singleton, List.not_mem_nil, or_false, false_or]
      tauto
    · rw [candidate_codes, if_neg hA, if_neg hB]
      simp only [List.mem_append, List.mem_singleton, List.not_mem_nil, or_false, false_or]
      tauto

omit [FloorRing α] in
lemma lookup_scan_no_match (cands : List String) (l : List (RawAirport α))
    (h : ∀ r ∈ l, ¬(icao_of r ∈ cands ∨ iata_of r ∈ cands)) :
    lookup_scan cands l = none := by
  induction l with
  | nil => rfl
  | cons r rest ih =>
    unfold lookup_scan
    rw [if_neg (h r (List.mem_cons_self r rest))]
    exact ih fun s hs => h s (List.mem_cons_of_mem r hs)

lemma normalize_blank_code (code : String) (h : str_trim code = "") :
    normalize_airport_code code = "" := by
  unfold normalize_airport_code
  by_cases hc : code = ""
  · rw [if_pos hc]
  · rw [if_neg hc]
    simp only [h]
    decide

/-- Claim C6, counterexample to the claim as stated: a snapshot whose one
record has an empty IATA field. The empty normalized code is its own only
candidate and the record's empty IATA code matches it, so lookup with the
empty code returns that record instead of "not found". -/
def c6_entry : RawAirport ℚ :=
  { icao := some "ABC", lat := some (.pnum 1), lon := some (.pnum 2) }

/-- Claim C6 (as stated, refuted): lookup with an empty code does not
return `none` on every snapshot. -/
theorem c6_counterexample :
    ¬get_airport_coordinates [c6_entry] "" = none := by decide

/-- Claim C6 (amended): lookup with an empty or blank code returns
not-found provided every record carries both a nonempty ICAO and a
nonempty IATA code (a record with an empty code field matches the empty
candidate code); lookup with a code none of whose candidates matches any
record's codes returns not-found; and search with neither a non-blank
query nor both coordinates returns the empty list. No case raises: all
three are total functions returning `none`/`[]`. -/
theorem c6_caller_input_errors {α : Type} [LinearOrderedField α] [FloorRing α]
    (snapshot : List (RawAirport α)) (code : String)
    (distFn : α → α → α → α → α) (ratio : String → String → α)
    (query : Option String) (limit : ℕ) (latitude longitude radius_nm : Option α) :
    ((∀ r ∈ snapshot, ¬icao_of r = "" ∧ ¬iata_of r = "") → str_trim code = "" →
      get_airport_coordinates snapshot code = none) ∧
    ((∀ r ∈ snapshot,
        ¬icao_of r ∈ candidate_codes (normalize_airport_code code) ∧
        ¬iata_of r ∈ candidate_codes (normalize_airport_code code)) →
      get_airport_coordinates snapshot code = none) ∧
    (str_lower (str_trim (query.getD "")) = "" → latitude = none ∨ longitude = none →
      search_airports distFn ratio snapshot query limit latitude longitude radius_nm = []) := by
  refine ⟨fun h1 h2 => ?_, fun h => ?_, fun hq hgeo => ?_⟩
  · unfold get_airport_coordinates
    rw [normalize_blank_code code h2]
    refine lookup_scan_no_match _ _ fun r hr => ?_
    rintro (hm | hm)
    · rw [show candidate_codes "" = [""] from rfl, List.mem_singleton] at hm
      exact (h1 r hr).1 hm
    · rw [show candidate_codes "" = [""] from rfl, List.mem_singleton] at hm
      exact (h1 r hr).2 hm
  · exact lookup_scan_no_match _ _ fun r hr => fun hm =>
      hm.elim (h r hr).1 (h r hr).2
  · have hg : ¬(latitude.isSome = true ∧ longitude.isSome = true) := by
      rcases hgeo with h | h <;> subst h <;> simp
    simp [search_airports, hq, hg]

/-- Witness record for the amended claim C6: both code fields nonempty. -/
def c6_entry2 : RawAirport ℚ :=
  { icao := some "KXYZ", iata := some "XYZ", lat := some (.pnum 1), lon := some (.pnum 2) }

/-- Concrete instance of the amended claim C6: blank-code lookup,
unmatched-code lookup, and argument-free search on a one-record snapshot. -/
theorem c6_caller_input_errors_witness :
    get_airport_coordinates [c6_entry2] " " = none ∧
    get_airport_coordinates [c6_entry2] "QQQQ" = none ∧
    search_airports (fun _ _ _ _ => (0 : ℚ)) (fun _ _ => (0 : ℚ)) [c6_entry2]
      none 20 none none none = [] := by
  refine ⟨?_, ?_, ?_⟩
  · exact (c6_caller_input_errors [c6_entry2] " " (fun _ _ _ _ => 0) (fun _ _ => 0)
      none 20 none none none).1 (by decide) (by decide)
  · exact (c6_caller_input_errors [c6_entry2] "QQQQ" (fun _ _ _ _ => 0) (fun _ _ => 0)
      none 20 none none none).2.1 (by decide)
  · exact (c6_caller_input_errors [c6_entry2] "" (fun _ _ _ _ => 0) (fun _ _ => 0)
      none 20 none none none).2.2 (by decide) (Or.inl rfl)

/-- Claim C2: the text scorer assigns the score of the first matching tier,
top down — exact code match 1.0; ICAO prefix 0.95; IATA prefix 0.90;
code-haystack substring 0.85; full-text substring 0.65; otherwise the best
sequence-alignment ratio against ICAO, IATA and name decides: below 0.6
the record is excluded, else the score is `0.5 + (ratio - 0.6) * 0.5`,
which lies in `[0.5, 0.7]`. The guarded conjuncts make the tiers mutually
exclusive: exactly one applies to a record. -/
theorem c2_text_score_tiers (ratio : String → String → ℝ)
    (q icao_code iata_code name city country : String)
    (hq : ¬q = "")
    (hr : ∀ s t, 0 ≤ ratio s t ∧ ratio s t ≤ 1) :
    (q ∈ ((icao_code :: iata_code :: candidate_codes icao_code).dedup.filter
        (fun c => decide (¬c = ""))).map str_lower →
      text_score ratio q icao_code iata_code (candidate_codes icao_code)
        name city country = some 1) ∧
    (¬q ∈ ((icao_code :: iata_code :: candidate_codes icao_code).dedup.filter
        (fun c => decide (¬c = ""))).map str_lower →
      str_starts (str_lower icao_code) q = true →
      text_score ratio q icao_code iata_code (candidate_codes icao_code)
        name city country = some (95 / 100)) ∧
    (¬q ∈ ((icao_code :: iata_code :: candidate_codes icao_code).dedup.filter
        (fun c => decide (¬c = ""))).map str_lower →
      ¬str_starts (str_lower icao_code) q = true →
      str_starts (str_lower iata_code) q = true →
      text_score ratio q icao_code iata_code (candidate_codes icao_code)
        name city country = some (9 / 10)) ∧
    (¬q ∈ ((icao_code :: iata_code :: candidate_codes icao_code).dedup.filter
        (fun c => decide (¬c = ""))).map str_lower →
      ¬str_starts (str_lower icao_code) q = true →
      ¬str_starts (str_lower iata_code) q = true →
      str_contains (code_hay_of icao_code iata_code (candidate_codes icao_code)) q = true →
      text_score ratio q icao_code iata_code (candidate_codes icao_code)
        name city country = some (85 / 100)) ∧
    (¬q ∈ ((icao_code :: iata_code :: candidate_codes icao_code).dedup.filter
        (fun c => decide (¬c = ""))).map str_lower →
      ¬str_starts (str_lower icao_code) q = true →
      ¬str_starts (str_lower iata_code) q = true →
      ¬str_contains (code_hay_of icao_code iata_code (candidate_codes icao_code)) q = true →
      str_contains (text_hay_of icao_code iata_code (candidate_codes icao_code)
        name city country) q = true →
      text_score ratio q icao_code iata_code (candidate_codes icao_code)
        name city country = some (65 / 100)) ∧
    (¬q ∈ ((icao_code :: iata_code :: candidate_codes icao_code).dedup.filter
        (fun c => decide (¬c = ""))).map str_lower →
      ¬str_starts (str_lower icao_code) q = true →
      ¬str_starts (str_lower iata_code) q = true →
      ¬str_contains (code_hay_of icao_code iata_code (candidate_codes icao_code)) q = true →
      ¬str_contains (text_hay_of icao_code iata_code (candidate_codes icao_code)
        name city country) q = true →
      (max (max (ratio q (str_lower icao_code)) (ratio q (str_lower iata_code)))
          (ratio q (str_lower name)) < 6 / 10 →
        text_score ratio q icao_code iata_code (candidate_codes icao_code)
          name city country = none) ∧
      (6 / 10 ≤ max (max (ratio q (str_lower icao_code)) (ratio q (str_lower iata_code)))
          (ratio q (str_lower name)) →
        text_score ratio q icao_code iata_code (candidate_codes icao_code)
            name city country =
          some (1 / 2 + (max (max (ratio q (str_lower icao_code))
            (ratio q (str_lower iata_code))) (ratio q (str_lower name)) - 6 / 10) *
              (1 / 2)) ∧
        1 / 2 ≤ 1 / 2 + (max (max (ratio q (str_lower icao_code))
          (ratio q (str_lower iata_code))) (ratio q (str_lower name)) - 6 / 10) * (1 / 2) ∧
        1 / 2 + (max (max (ratio q (str_lower icao_code))
          (ratio q (str_lower iata_code))) (ratio q (str_lower name)) - 6 / 10) * (1 / 2) ≤
          7 / 10)) := by
  refine ⟨fun h1 => ?_, fun h1 h2 => ?_, fun h1 h2 h3 => ?_, fun h1 h2 h3 h4 => ?_,
    fun h1 h2 h3 h4 h5 => ?_, fun h1 h2 h3 h4 h5 => ⟨fun h6 => ?_, fun h6 => ?_⟩⟩
  · rw [text_score, if_pos h1]
  · rw [text_score, if_neg h1, if_pos h2]
  · rw [text_score, if_neg h1, if_neg h2, if_pos h3]
  · rw [text_score, if_neg h1, if_neg h2, if_neg h3, if_pos h4]
  · rw [text_score, if_neg h1, if_neg h2, if_neg h3, if_neg h4, if_pos h5]
  · rw [text_score, if_neg h1, if_neg h2, if_neg h3, if_neg h4, if_neg h5]
    simp only [if_pos h6]
  · rw [text_score, if_neg h1, if_neg h2, if_neg h3, if_neg h4, if_neg h5]
    simp only [if_neg (not_lt.mpr h6)]
    have hle : max (max (ratio q (str_lower icao_code)) (ratio q (str_lower iata_code)))
        (ratio q (str_lower name)) ≤ 1 :=
      max_le (max_le (hr q (str_lower icao_code)).2 (hr q (str_lower iata_code)).2)
        (hr q (str_lower name)).2
    exact ⟨by trivial, by linarith, by linarith⟩

/-- Concrete instance of claim C2: an exact code match scores 1.0, and a
record retained by the fuzzy tier at ratio 0.8 scores 0.6, inside
`[0.5, 0.7]`. -/
theorem c2_text_score_tiers_witness :
    text_score (fun _ _ => (0 : ℝ)) "kabc" "KABC" "" (candidate_codes "KABC")
        "" "" "" = some 1 ∧
    text_score (fun _ _ => (4 / 5 : ℝ)) "zzz" "KABC" "" (candidate_codes "KABC")
        "" "" "" = some (1 / 2 + (4 / 5 - 6 / 10) * (1 / 2)) := by
  constructor
  · exact (c2_text_score_tiers (fun _ _ => 0) "kabc" "KABC" "" "" "" ""
      (by decide) (fun s t => by norm_num)).1 (by decide)
  · have h := (c2_text_score_tiers (fun _ _ => (4 / 5 : ℝ)) "zzz" "KABC" "" "" "" ""
      (by decide) (fun s t => by norm_num)).2.2.2.2.2
    have h2 := (h (by decide) (by decide) (by decide) (by decide) (by decide)).2
      (by norm_num)
    simpa using h2.1

/-- The symmetry of the haversine intermediate value `a`. -/
lemma hav_a_symm (lat1 lon1 lat2 lon2 : ℝ) :
    hav_a lat1 lon1 lat2 lon2 = hav_a lat2 lon2 lat1 lon1 := by
  have h1 : ∀ u v : ℝ,
      Real.sin (radians (u - v) / 2) ^ 2 = Real.sin (radians (v - u) / 2) ^ 2 := by
    intro u v
    rw [show radians (u - v) / 2 = -(radians (v - u) / 2) by unfold radians; ring,
      Real.sin_neg, neg_sq]
  unfold hav_a
  rw [h1 lat2 lat1, h1 lon2 lon1]
  ring

/-- The haversine intermediate value vanishes on identical points. -/
lemma hav_a_self (lat lon : ℝ) : hav_a lat lon lat lon = 0 := by
  unfold hav_a radians
  simp

lemma haversine_radius_symm (R lat1 lon1 lat2 lon2 : ℝ) :
    haversine_radius R lat1 lon1 lat2 lon2 = haversine_radius R lat2 lon2 lat1 lon1 := by
  unfold haversine_radius
  rw [hav_a_symm]

lemma haversine_radius_self (R lat lon : ℝ) : haversine_radius R lat lon lat lon = 0 := by
  unfold haversine_radius
  rw [hav_a_self]
  simp [atan2, Real.sqrt_zero, Real.sqrt_one, Real.arctan_zero]

/-- Claim C8: both distance functions are symmetric in their two points and
vanish on identical points. -/
theorem c8_distance_symm_and_zero :
    (∀ lat1 lon1 lat2 lon2 : ℝ,
      haversine_nm lat1 lon1 lat2 lon2 = haversine_nm lat2 lon2 lat1 lon1) ∧
    (∀ lat lon : ℝ, haversine_nm lat lon lat lon = 0) ∧
    (∀ (unit : DistUnit) (lat1 lon1 lat2 lon2 : ℝ),
      haversine_distance lat1 lon1 lat2 lon2 unit =
        haversine_distance lat2 lon2 lat1 lon1 unit) ∧
    (∀ (unit : DistUnit) (lat lon : ℝ), haversine_distance lat lon lat lon unit = 0) :=
  ⟨fun lat1 lon1 lat2 lon2 => haversine_radius_symm _ lat1 lon1 lat2 lon2,
   fun lat lon => haversine_radius_self _ lat lon,
   fun _ lat1 lon1 lat2 lon2 => haversine_radius_symm _ lat1 lon1 lat2 lon2,
   fun _ lat lon => haversine_radius_self _ lat lon⟩

lemma hav_a_unit_interval_aux (p1 p2 dl : ℝ) :
    0 ≤ Real.sin ((p2 - p1) / 2) ^ 2 +
        Real.cos p1 * Real.cos p2 * Real.sin (dl / 2) ^ 2 ∧
      Real.sin ((p2 - p1) / 2) ^ 2 +
        Real.cos p1 * Real.cos p2 * Real.sin (dl / 2) ^ 2 ≤ 1 := by
  have hs1 : Real.sin ((p2 - p1) / 2) ^ 2 = 1 / 2 - Real.cos (p2 - p1) / 2 := by
    rw [Real.sin_sq_eq_half_sub, show 2 * ((p2 - p1) / 2) = p2 - p1 from by ring]
  have hs2 : Real.sin (dl / 2) ^ 2 = 1 / 2 - Real.cos dl / 2 := by
    rw [Real.sin_sq_eq_half_sub, show 2 * (dl / 2) = dl from by ring]
  have hc1 := Real.cos_sub p2 p1
  have hc2 := Real.cos_add p2 p1
  have hb1 := Real.neg_one_le_cos dl
  have hb2 := Real.cos_le_one dl
  have hb3 := Real.neg_one_le_cos (p2 - p1)
  have hb4 := Real.cos_le_one (p2 - p1)
  have hb5 := Real.neg_one_le_cos (p2 + p1)
  have hb6 := Real.cos_le_one (p2 + p1)
  constructor
  · rw [hs1, hs2]
    nlinarith [mul_nonneg (by linarith : (0:ℝ) ≤ 1 + Real.cos dl)
        (by linarith : (0:ℝ) ≤ 1 - Real.cos (p2 - p1)),
      mul_nonneg (by linarith : (0:ℝ) ≤ 1 - Real.cos dl)
        (by linarith : (0:ℝ) ≤ 1 + Real.cos (p2 + p1))]
  · rw [hs1, hs2]
    nlinarith [mul_nonneg (by linarith : (0:ℝ) ≤ 1 + Real.cos dl)
        (by linarith : (0:ℝ) ≤ 1 + Real.cos (p2 - p1)),
      mul_nonneg (by linarith : (0:ℝ) ≤ 1 - Real.cos dl)
        (by linarith : (0:ℝ) ≤ 1 - Real.cos (p2 + p1))]

/-- Claim C5, exact-arithmetic side: the value `a` of the haversine formula
always lies in `[0, 1]` over the reals, so both `sqrt(a)` and `sqrt(1-a)`
receive arguments in `[0, 1]` in the real model — the code contains no
clamp, and the spec's protection against floating-point overshoot (where
`a` can exceed 1 and `math.sqrt(1-a)` raises) is absent from the code. -/
theorem c5_inner_argument_unit_interval (lat1 lon1 lat2 lon2 : ℝ) :
    0 ≤ hav_a lat1 lon1 lat2 lon2 ∧ hav_a lat1 lon1 lat2 lon2 ≤ 1 ∧
    0 ≤ 1 - hav_a lat1 lon1 lat2 lon2 ∧ 1 - hav_a lat1 lon1 lat2 lon2 ≤ 1 := by
  have h : hav_a lat1 lon1 lat2 lon2 =
      Real.sin ((radians lat2 - radians lat1) / 2) ^ 2 +
        Real.cos (radians lat1) * Real.cos (radians lat2) *
          Real.sin (radians (lon2 - lon1) / 2) ^ 2 := by
    unfold hav_a
    rw [show radians (lat2 - lat1) = radians lat2 - radians lat1 from by
      unfold radians; ring]
  have := hav_a_unit_interval_aux (radians lat1) (radians lat2) (radians (lon2 - lon1))
  rw [h]
  exact ⟨this.1, this.2, by linarith [this.1, this.2], by linarith [this.1, this.2]⟩

lemma mem_keys_eq_true (k : String ⊕ α × α) (seen : List (String ⊕ α × α)) :
    mem_keys k seen = true ↔ k ∈ seen := by
  simp only [mem_keys, List.any_eq_true, decide_eq_true_eq]
  constructor
  · rintro ⟨s, hs, rfl⟩; exact hs
  · intro h; exact ⟨k, h, rfl⟩

lemma dist_le_trans (a b c : α × WithTop α × Airport α)
    (h1 : dist_le a b = true) (h2 : dist_le b c = true) : dist_le a c = true := by
  simp only [dist_le, decide_eq_true_eq] at h1 h2 ⊢
  exact le_trans h1 h2

lemma dist_le_total (a b : α × WithTop α × Airport α) :
    (dist_le a b || dist_le b a) = true := by
  simp only [dist_le, Bool.or_eq_true, decide_eq_true_eq]
  exact le_total _ _

lemma rank_le_trans (a b c : α × WithTop α × Airport α)
    (h1 : rank_le a b = true) (h2 : rank_le b c = true) : rank_le a c = true := by
  simp only [rank_le, decide_eq_true_eq] at h1 h2 ⊢
  rcases h1 with h1 | ⟨h1e, h1d⟩ <;> rcases h2 with h2 | ⟨h2e, h2d⟩
  · exact Or.inl (lt_trans h2 h1)
  · exact Or.inl (by rw [← h2e]; exact h1)
  · exact Or.inl (by rw [h1e]; exact h2)
  · exact Or.inr ⟨h1e.trans h2e, le_trans h1d h2d⟩

lemma rank_le_total (a b : α × WithTop α × Airport α) :
    (rank_le a b || rank_le b a) = true := by
  simp only [rank_le, Bool.or_eq_true, decide_eq_true_eq]
  rcases lt_trichotomy a.1 b.1 with h | h | h
  · exact Or.inr (Or.inl h)
  · rcases le_total a.2.1 b.2.1 with hd | hd
    · exact Or.inl (Or.inr ⟨h, hd⟩)
    · exact Or.inr (Or.inr ⟨h.symm, hd⟩)
  · exact Or.inl (Or.inl h)

lemma dedup_key_set_distance (a : Airport α) (d : Option α) :
    dedup_key { a with distance_nm := d } = dedup_key a := rfl

lemma cand_of_key (distFn : α → α → α → α → α) (ratio : String → String → α)
    (q : String) (latitude longitude : Option α) (r : RawAirport α)
    (t : α × WithTop α × Airport α)
    (h : cand_of distFn ratio q latitude longitude r = some t) :
    key_raw r = dedup_key t.2.2 := by
  unfold cand_of at h
  rcases hE : extract_lat_lon r with ⟨la, lo⟩
  rw [hE] at h
  rcases la with _ | lav
  · exact absurd h (by simp)
  rcases lo with _ | lov
  · exact absurd h (by simp)
  rcases hS : record_score ratio q r with _ | score
  · rw [hS] at h; exact absurd h (by simp)
  · rw [hS] at h
    simp only [Option.some_inj] at h
    rw [← h]
    unfold key_raw
    rw [hE, dedup_key_set_distance]

lemma build_candidates_dist (distFn : α → α → α → α → α) (ratio : String → String → α)
    (q : String) (la lo : α) (radius_nm : Option α) :
    ∀ (l : List (RawAirport α)) (seen : List (String ⊕ α × α))
      (t : α × WithTop α × Airport α),
      t ∈ build_candidates distFn ratio q (some la) (some lo) radius_nm l seen →
      t.2.1 = ((distFn la lo t.2.2.latitude t.2.2.longitude : α) : WithTop α) ∧
      t.2.2.distance_nm = some (round2 (distFn la lo t.2.2.latitude t.2.2.longitude)) ∧
      ∀ rad, radius_nm = some rad → distFn la lo t.2.2.latitude t.2.2.longitude ≤ rad := by
  intro l
  induction l with
  | nil => intro seen t ht; exact absurd ht (List.not_mem_nil t)
  | cons r rest ih =>
    intro seen t ht
    unfold build_candidates at ht
    by_cases hp : passes distFn (some la) (some lo) radius_nm r = true
    · rw [if_pos hp] at ht
      by_cases hk : mem_keys (key_raw r) seen = true
      · rw [if_pos hk] at ht
        exact ih seen t ht
      · rw [if_neg hk] at ht
        rcases hc : cand_of distFn ratio q (some la) (some lo) r with _ | u
        · rw [hc] at ht
          exact ih _ t ht
        · rw [hc] at ht
          rcases List.mem_cons.mp ht with rfl | hmem
          · unfold cand_of at hc
            rcases hE : extract_lat_lon r with ⟨lav, lov⟩
            rw [hE] at hc
            rcases lav with _ | lat_v
            · exact absurd hc (by simp)
            rcases lov with _ | lon_v
            · exact absurd hc (by simp)
            rcases hS : record_score ratio q r with _ | score
            · rw [hS] at hc; exact absurd hc (by simp)
            rw [hS] at hc
            simp only [Option.some_inj] at hc
            have hlat : t.2.2.latitude = lat_v := by rw [← hc]; rfl
            have hlon : t.2.2.longitude = lon_v := by rw [← hc]; rfl
            refine ⟨?_, ?_, ?_⟩
            · rw [hlat, hlon, ← hc]; rfl
            · rw [hlat, hlon, ← hc]; rfl
            · intro rad hrad
              unfold passes at hp
              rw [hE, hrad] at hp
              simp only [dist_of, Bool.not_eq_eq_eq_not, Bool.not_true,
                decide_eq_false_iff_not, not_lt] at hp
              rw [hlat, hlon]
              exact hp
          · exact ih _ t hmem
    · rw [if_neg hp] at ht
      exact ih seen t ht

lemma build_candidates_first_seen (distFn : α → α → α → α → α)
    (ratio : String → String → α) (q : String) (latitude longitude radius_nm : Option α) :
    ∀ (l : List (RawAirport α)) (seen : List (String ⊕ α × α))
      (t : α × WithTop α × Airport α),
      t ∈ build_candidates distFn ratio q latitude longitude radius_nm l seen →
      ¬dedup_key t.2.2 ∈ seen ∧
      ∃ r, (l.filter (passes distFn latitude longitude radius_nm)).find?
          (fun s => decide (key_raw s = dedup_key t.2.2)) = some r ∧
        cand_of distFn ratio q latitude longitude r = some t := by
  intro l
  induction l with
  | nil => intro seen t ht; exact absurd ht (List.not_mem_nil t)
  | cons r rest ih =>
    intro seen t ht
    unfold build_candidates at ht
    by_cases hp : passes distFn latitude longitude radius_nm r = true
    · rw [if_pos hp] at ht
      rw [List.filter_cons, if_pos hp]
      by_cases hk : mem_keys (key_raw r) seen = true
      · rw [if_pos hk] at ht
        obtain ⟨hnot, rr, hfind, hcand⟩ := ih seen t ht
        have hne : ¬key_raw r = dedup_key t.2.2 := by
          intro he
          exact hnot (he ▸ (mem_keys_eq_true _ _).mp hk)
        refine ⟨hnot, rr, ?_, hcand⟩
        rw [List.find?_cons_of_neg _ (by simpa using hne)]
        exact hfind
      · rw [if_neg hk] at ht
        rcases hc : cand_of distFn ratio q latitude longitude r with _ | u
        · rw [hc] at ht
          obtain ⟨hnot, rr, hfind, hcand⟩ := ih _ t ht
          have hne : ¬key_raw r = dedup_key t.2.2 := by
            intro he
            exact hnot (he ▸ List.mem_cons_self _ _)
          refine ⟨fun hmem => hnot (List.mem_cons_of_mem _ hmem), rr, ?_, hcand⟩
          rw [List.find?_cons_of_neg _ (by simpa using hne)]
          exact hfind
        · rw [hc] at ht
          rcases List.mem_cons.mp ht with rfl | hmem
          · have hkey := cand_of_key distFn ratio q latitude longitude r t hc
            refine ⟨fun hmem => hk ((mem_keys_eq_true _ _).mpr (hkey ▸ hmem)), r, ?_, hc⟩
            rw [List.find?_cons_of_pos _ (by simpa using hkey)]
          · obtain ⟨hnot, rr, hfind, hcand⟩ := ih _ t hmem
            have hne : ¬key_raw r = dedup_key t.2.2 := by
              intro he
              exact hnot (he ▸ List.mem_cons_self _ _)
            refine ⟨fun hm => hnot (List.mem_cons_of_mem _ hm), rr, ?_, hcand⟩
            rw [List.find?_cons_of_neg _ (by simpa using hne)]
            exact hfind
    · rw [if_neg hp] at ht
      rw [List.filter_cons, if_neg hp]
      exact ih seen t ht

lemma build_candidates_keys_pairwise (distFn : α → α → α → α → α)
    (ratio : String → String → α) (q : String)
    (latitude longitude radius_nm : Option α) :
    ∀ (l : List (RawAirport α)) (seen : List (String ⊕ α × α)),
      List.Pairwise (fun t u : α × WithTop α × Airport α =>
          ¬dedup_key t.2.2 = dedup_key u.2.2)
        (build_candidates distFn ratio q latitude longitude radius_nm l seen) := by
  intro l
  induction l with
  | nil => intro seen; exact List.Pairwise.nil
  | cons r rest ih =>
    intro seen
    unfold build_candidates
    by_cases hp : passes distFn latitude longitude radius_nm r = true
    · rw [if_pos hp]
      by_cases hk : mem_keys (key_raw r) seen = true
      · rw [if_pos hk]; exact ih seen
      · rw [if_neg hk]
        rcases hc : cand_of distFn ratio q latitude longitude r with _ | u
        · exact ih _
        · refine List.pairwise_cons.mpr ⟨?_, ih _⟩
          intro u hu
          have hkey := cand_of_key distFn ratio q latitude longitude r _ hc
          have hnot := (build_candidates_first_seen distFn ratio q latitude longitude
            radius_nm rest _ u hu).1
          intro he
          exact hnot (by
            rw [← he, ← hkey]
            exact List.mem_cons_self _ _)
    · rw [if_neg hp]; exact ih seen

lemma mem_search_sorted (distFn : α → α → α → α → α) (ratio : String → String → α)
    (snapshot : List (RawAirport α)) (query : Option String)
    (latitude longitude radius_nm : Option α) (t : α × WithTop α × Airport α) :
    t ∈ search_sorted distFn ratio snapshot query latitude longitude radius_nm ↔
      t ∈ build_candidates distFn ratio (str_lower (str_trim (query.getD "")))
        latitude longitude radius_nm snapshot [] := by
  simp only [search_sorted]
  split
  · exact (List.mergeSort_perm _ _).mem_iff
  · exact (List.mergeSort_perm _ _).mem_iff

lemma mem_search_airports (distFn : α → α → α → α → α) (ratio : String → String → α)
    (snapshot : List (RawAirport α)) (query : Option String) (limit : ℕ)
    (latitude longitude radius_nm : Option α) (a : Airport α)
    (ha : a ∈ search_airports distFn ratio snapshot query limit latitude longitude
      radius_nm) :
    ∃ t, t ∈ build_candidates distFn ratio (str_lower (str_trim (query.getD "")))
        latitude longitude radius_nm snapshot [] ∧ t.2.2 = a := by
  simp only [search_airports] at ha
  split at ha
  · exact absurd ha (List.not_mem_nil a)
  · obtain ⟨t, ht, rfl⟩ := List.mem_map.mp ha
    exact ⟨t, (mem_search_sorted distFn ratio snapshot query latitude longitude
      radius_nm t).mp (List.mem_of_mem_take ht), rfl⟩

/-- Claim C4: no two records of any result list share a dedup key, and each
returned record is the one built from the first record — in snapshot
iteration order, among the records passing the coordinate and radius
filters — bearing its dedup key. -/
theorem c4_dedup_unique_first_seen {α : Type} [LinearOrderedField α] [FloorRing α]
    (distFn : α → α → α → α → α) (ratio : String → String → α)
    (snapshot : List (RawAirport α)) (query : Option String) (limit : ℕ)
    (latitude longitude radius_nm : Option α) :
    List.Pairwise (fun a b : Airport α => ¬dedup_key a = dedup_key b)
      (search_airports distFn ratio snapshot query limit latitude longitude radius_nm) ∧
    ∀ a ∈ search_airports distFn ratio snapshot query limit latitude longitude radius_nm,
      ∃ r, (snapshot.filter (passes distFn latitude longitude radius_nm)).find?
          (fun s => decide (key_raw s = dedup_key a)) = some r ∧
        (cand_of distFn ratio (str_lower (str_trim (query.getD ""))) latitude longitude
          r).map (fun t => t.2.2) = some a := by
  constructor
  · simp only [search_airports]
    split
    · exact List.Pairwise.nil
    · rw [List.pairwise_map]
      refine List.Pairwise.sublist (List.take_sublist _ _) ?_
      have hpw := build_candidates_keys_pairwise distFn ratio
        (str_lower (str_trim (query.getD ""))) latitude longitude radius_nm snapshot []
      simp only [search_sorted]
      split
      · exact ((List.mergeSort_perm _ dist_le).pairwise_iff
          (fun h he => h he.symm)).mpr hpw
      · exact ((List.mergeSort_perm _ rank_le).pairwise_iff
          (fun h he => h he.symm)).mpr hpw
  · intro a ha
    obtain ⟨t, ht, rfl⟩ := mem_search_airports distFn ratio snapshot query limit
      latitude longitude radius_nm a ha
    obtain ⟨-, r, hfind, hcand⟩ := build_candidates_first_seen distFn ratio
      (str_lower (str_trim (query.getD ""))) latitude longitude radius_nm snapshot [] t ht
    exact ⟨r, hfind, by rw [hcand]; rfl⟩

lemma cand_of_fields (distFn : α → α → α → α → α) (ratio : String → String → α)
    (q : String) (latitude longitude : Option α) (r : RawAirport α)
    (t : α × WithTop α × Airport α)
    (h : cand_of distFn ratio q latitude longitude r = some t) :
    ∃ lat_v lon_v, extract_lat_lon r = (some lat_v, some lon_v) ∧
      t.2.2 = { mk_normalized r lat_v lon_v with
        distance_nm := (dist_of distFn latitude longitude lat_v lon_v).map round2 } := by
  unfold cand_of at h
  rcases hE : extract_lat_lon r with ⟨la, lo⟩
  rw [hE] at h
  rcases la with _ | lat_v
  · exact absurd h (by simp)
  rcases lo with _ | lon_v
  · exact absurd h (by simp)
  rcases hS : record_score ratio q r with _ | score
  · rw [hS] at h; exact absurd h (by simp)
  · rw [hS] at h
    simp only [Option.some_inj] at h
    exact ⟨lat_v, lon_v, rfl, by rw [← h]⟩

lemma lookup_scan_shape (cands : List String) (l : List (RawAirport α)) (a : Airport α)
    (h : lookup_scan cands l = some a) :
    ∃ r ∈ l, ∃ lat_v lon_v, extract_lat_lon r = (some lat_v, some lon_v) ∧
      a = { icao := icao_of r, iata := iata_of r, name := r.name,
            city := str_or r.city "", country := str_or r.country "",
            latitude := lat_v, longitude := lon_v,
            elevation := r.elevation, type := str_or r.type "",
            distance_nm := none } := by
  induction l with
  | nil => exact absurd h (by simp [lookup_scan])
  | cons r rest ih =>
    unfold lookup_scan at h
    by_cases hm : icao_of r ∈ cands ∨ iata_of r ∈ cands
    · rw [if_pos hm] at h
      rcases hE : extract_lat_lon r with ⟨la, lo⟩
      rw [hE] at h
      rcases la with _ | lat_v
      · obtain ⟨s, hs, hrest⟩ := ih h
        exact ⟨s, List.mem_cons_of_mem r hs, hrest⟩
      rcases lo with _ | lon_v
      · obtain ⟨s, hs, hrest⟩ := ih h
        exact ⟨s, List.mem_cons_of_mem r hs, hrest⟩
      · simp only [Option.some_inj] at h
        exact ⟨r, List.mem_cons_self r rest, lat_v, lon_v, hE, h.symm⟩
    · rw [if_neg hm] at h
      obtain ⟨s, hs, hrest⟩ := ih h
      exact ⟨s, List.mem_cons_of_mem r hs, hrest⟩

/-- Claim C10, counterexample to the claim as stated: the lookup path
copies the raw `name` value as is, so looking up a record whose raw entry
lacks `name` returns an Airport whose `name` is null, not the empty
string. -/
def c10_entry : RawAirport ℚ :=
  { icao := some "KABC", lat := some (.pnum 1), lon := some (.pnum 2) }

/-- Claim C10 (as stated, refuted): a lookup result can carry a null
`name`. -/
theorem c10_counterexample :
    (get_airport_coordinates [c10_entry] "KABC").map Airport.name = some none := by
  decide

/-- Claim C10 (amended): every record returned by search has all four
free-text fields as strings — `name` defaulted to `""` (`city`, `country`,
`type` are strings by construction) — and its code fields upper-cased via
the raw code selection; every record returned by lookup has `city`,
`country`, `type` defaulted to `""` and upper-cased code fields, but its
`name` is the raw value passed through unchanged, which is null when the
raw entry lacks it. -/
theorem c10_canonical_fields {α : Type} [LinearOrderedField α] [FloorRing α]
    (distFn : α → α → α → α → α) (ratio : String → String → α)
    (snapshot : List (RawAirport α)) (query : Option String) (limit : ℕ)
    (latitude longitude radius_nm : Option α) (code : String) :
    (∀ a ∈ search_airports distFn ratio snapshot query limit latitude longitude radius_nm,
      ∃ r ∈ snapshot, a.name = some (str_or r.name "") ∧
        a.icao = str_upper (str_or r.icao (str_or r.icaoCode "")) ∧
        a.iata = str_upper (str_or r.iata (str_or r.iataCode "")) ∧
        a.city = str_or r.city "" ∧ a.country = str_or r.country "" ∧
        a.type = str_or r.type "") ∧
    (∀ a, get_airport_coordinates snapshot code = some a →
      ∃ r ∈ snapshot, a.name = r.name ∧
        a.icao = str_upper (str_or r.icao (str_or r.icaoCode "")) ∧
        a.iata = str_upper (str_or r.iata (str_or r.iataCode "")) ∧
        a.city = str_or r.city "" ∧ a.country = str_or r.country "" ∧
        a.type = str_or r.type "") := by
  constructor
  · intro a ha
    obtain ⟨t, ht, rfl⟩ := mem_search_airports distFn ratio snapshot query limit
      latitude longitude radius_nm a ha
    obtain ⟨-, r, hfind, hcand⟩ := build_candidates_first_seen distFn ratio
      (str_lower (str_trim (query.getD ""))) latitude longitude radius_nm snapshot [] t ht
    obtain ⟨lat_v, lon_v, -, hshape⟩ := cand_of_fields distFn ratio _ latitude longitude
      r t hcand
    have hr : r ∈ snapshot := List.mem_of_mem_filter (List.mem_of_find?_eq_some hfind)
    refine ⟨r, hr, ?_, ?_, ?_, ?_, ?_, ?_⟩ <;>
      rw [hshape] <;> rfl
  · intro a ha
    obtain ⟨r, hr, lat_v, lon_v, -, hshape⟩ := lookup_scan_shape _ snapshot a ha
    refine ⟨r, hr, ?_, ?_, ?_, ?_, ?_, ?_⟩ <;> rw [hshape] <;> rfl

/-- Concrete instance of the amended claim C10, on the lookup side: the
returned record has upper-cased codes, empty-string defaults for `city`,
`country`, `type`, and the raw (here missing, hence null) `name` passed
through. -/
theorem c10_canonical_fields_witness :
    ∃ r ∈ [c10_entry],
      ({ icao := "KABC", iata := "", name := none, city := "", country := "",
         latitude := (1 : ℚ), longitude := 2, elevation := none, type := "",
         distance_nm := none } : Airport ℚ).name = r.name ∧
      ({ icao := "KABC", iata := "", name := none, city := "", country := "",
         latitude := (1 : ℚ), longitude := 2, elevation := none, type := "",
         distance_nm := none } : Airport ℚ).icao =
        str_upper (str_or r.icao (str_or r.icaoCode "")) ∧
      ({ icao := "KABC", iata := "", name := none, city := "", country := "",
         latitude := (1 : ℚ), longitude := 2, elevation := none, type := "",
         distance_nm := none } : Airport ℚ).iata =
        str_upper (str_or r.iata (str_or r.iataCode "")) ∧
      ({ icao := "KABC", iata := "", name := none, city := "", country := "",
         latitude := (1 : ℚ), longitude := 2, elevation := none, type := "",
         distance_nm := none } : Airport ℚ).city = str_or r.city "" ∧
      ({ icao := "KABC", iata := "", name := none, city := "", country := "",
         latitude := (1 : ℚ), longitude := 2, elevation := none, type := "",
         distance_nm := none } : Airport ℚ).country = str_or r.country "" ∧
      ({ icao := "KABC", iata := "", name := none, city := "", country := "",
         latitude := (1 : ℚ), longitude := 2, elevation := none, type := "",
         distance_nm := none } : Airport ℚ).type = str_or r.type "" :=
  (c10_canonical_fields (fun _ _ _ _ => 0) (fun _ _ => 0) [c10_entry] none 20
    none none none "KABC").2 _ (by decide)

/-- Claim C3: with a reference point and radius every returned record lies
within the radius (by the code's own great-circle distance); a
proximity-only query returns records sorted ascending by great-circle
distance to the reference point; a query with text sorts the candidate list
by descending score, ties broken by ascending stored distance (a missing
distance being `⊤`, infinity); and the result list is the sorted candidate
list truncated to `limit` after sorting. -/
theorem c3_filter_sort_truncate (ratio : String → String → ℝ)
    (snapshot : List (RawAirport ℝ)) (query : Option String) (limit : ℕ)
    (la lo rad : ℝ) (latitude longitude radius_nm : Option ℝ) :
    (∀ a ∈ search_airports haversine_nm ratio snapshot query limit (some la) (some lo)
        (some rad), haversine_nm la lo a.latitude a.longitude ≤ rad) ∧
    (str_lower (str_trim (query.getD "")) = "" →
      List.Pairwise (fun a b : Airport ℝ =>
          haversine_nm la lo a.latitude a.longitude ≤
            haversine_nm la lo b.latitude b.longitude)
        (search_airports haversine_nm ratio snapshot query limit (some la) (some lo)
          radius_nm)) ∧
    (¬str_lower (str_trim (query.getD "")) = "" →
      List.Pairwise (fun t u : ℝ × WithTop ℝ × Airport ℝ =>
          u.1 < t.1 ∨ (t.1 = u.1 ∧ t.2.1 ≤ u.2.1))
        (search_sorted haversine_nm ratio snapshot query latitude longitude radius_nm)) ∧
    (¬(str_lower (str_trim (query.getD "")) = "" ∧
        ¬(latitude.isSome ∧ longitude.isSome)) →
      search_airports haversine_nm ratio snapshot query limit latitude longitude
          radius_nm =
        ((search_sorted haversine_nm ratio snapshot query latitude longitude
          radius_nm).take limit).map (fun t => t.2.2)) := by
  refine ⟨fun a ha => ?_, fun hq => ?_, fun hq => ?_, fun hg => ?_⟩
  · obtain ⟨t, ht, rfl⟩ := mem_search_airports haversine_nm ratio snapshot query limit
      (some la) (some lo) (some rad) a ha
    exact (build_candidates_dist haversine_nm ratio _ la lo (some rad) snapshot [] t
      ht).2.2 rad rfl
  · simp only [search_airports]
    split
    · exact List.Pairwise.nil
    · rw [List.pairwise_map]
      refine List.Pairwise.sublist (List.take_sublist _ _) ?_
      simp only [search_sorted]
      rw [if_pos ⟨⟨rfl, rfl⟩, hq⟩]
      have hsorted := @List.sorted_mergeSort _ dist_le
        dist_le_trans dist_le_total
        (build_candidates haversine_nm ratio (str_lower (str_trim (query.getD "")))
          (some la) (some lo) radius_nm snapshot [])
      refine hsorted.imp_of_mem ?_
      intro t u htm hum hle
      have htb := (List.mergeSort_perm _ dist_le).mem_iff.mp htm
      have hub := (List.mergeSort_perm _ dist_le).mem_iff.mp hum
      have ht1 := (build_candidates_dist haversine_nm ratio _ la lo radius_nm snapshot []
        t htb).1
      have hu1 := (build_candidates_dist haversine_nm ratio _ la lo radius_nm snapshot []
        u hub).1
      simp only [dist_le, decide_eq_true_eq] at hle
      rw [ht1, hu1] at hle
      exact_mod_cast hle
  · simp only [search_sorted]
    rw [if_neg fun h => hq h.2]
    have hsorted := @List.sorted_mergeSort _ rank_le
      rank_le_trans rank_le_total
      (build_candidates haversine_nm ratio (str_lower (str_trim (query.getD "")))
        latitude longitude radius_nm snapshot [])
    refine hsorted.imp ?_
    intro t u hle
    simpa only [rank_le, decide_eq_true_eq] using hle
  · simp only [search_airports]
    rw [if_neg hg]

/-- A concrete one-record rational snapshot used to instantiate claim C4. -/
def c4_entry : RawAirport ℚ :=
  { icao := some "KLAX", lat := some (.pnum 1), lon := some (.pnum 2) }

/-- The record the search of the claim C4 instance returns. -/
def c4_result : Airport ℚ :=
  { icao := "KLAX", iata := "", name := some "", city := "", country := "",
    latitude := 1, longitude := 2, elevation := none, type := "",
    distance_nm := none }

/-- Concrete instance of claim C4: on a one-record snapshot the result list
has pairwise distinct dedup keys and its record is the first-seen filter
survivor for its key. -/
theorem c4_dedup_unique_first_seen_witness :
    List.Pairwise (fun a b : Airport ℚ => ¬dedup_key a = dedup_key b)
      (search_airports (fun _ _ _ _ => (0 : ℚ)) (fun _ _ => (0 : ℚ)) [c4_entry]
        (some "KLAX") 20 none none none) ∧
    ∃ r, ([c4_entry].filter (passes (fun _ _ _ _ => (0 : ℚ)) none none none)).find?
        (fun s => decide (key_raw s = dedup_key c4_result)) = some r ∧
      (cand_of (fun _ _ _ _ => (0 : ℚ)) (fun _ _ => (0 : ℚ))
        (str_lower (str_trim ((some "KLAX").getD ""))) none none r).map
          (fun t => t.2.2) = some c4_result := by
  have hb : build_candidates (fun _ _ _ _ => (0 : ℚ)) (fun _ _ => (0 : ℚ)) "klax"
      none none none [c4_entry] [] = [(1, ⊤, c4_result)] := by decide
  have hs : search_airports (fun _ _ _ _ => (0 : ℚ)) (fun _ _ => (0 : ℚ)) [c4_entry]
      (some "KLAX") 20 none none none = [c4_result] := by
    have hq : str_lower (str_trim ((some "KLAX").getD "")) = "klax" := by decide
    simp only [search_airports, search_sorted, hq]
    rw [if_neg (by decide), if_neg (by decide), hb, List.mergeSort_singleton]
    rfl
  have h := c4_dedup_unique_first_seen (fun _ _ _ _ => (0 : ℚ)) (fun _ _ => (0 : ℚ))
    [c4_entry] (some "KLAX") 20 none none none
  exact ⟨h.1, h.2 c4_result (by rw [hs]; exact List.mem_singleton.mpr rfl)⟩

/-- A concrete one-record real snapshot used to instantiate claim C3. -/
def cw_entry : RawAirport ℝ :=
  { icao := some "KLAX", lat := some (.pnum 1), lon := some (.pnum 2) }

/-- Concrete instance of claim C3 on a one-record snapshot: the radius
bound for a proximity search, ascending order for a proximity-only query,
rank order and truncation for a text query. -/
theorem c3_filter_sort_truncate_witness :
    (∀ a ∈ search_airports haversine_nm (fun _ _ => 0) [cw_entry] none 20 (some 1)
        (some 2) (some 5), haversine_nm 1 2 a.latitude a.longitude ≤ 5) ∧
    List.Pairwise (fun a b : Airport ℝ =>
        haversine_nm 1 2 a.latitude a.longitude ≤ haversine_nm 1 2 b.latitude b.longitude)
      (search_airports haversine_nm (fun _ _ => 0) [cw_entry] none 20 (some 1) (some 2)
        none) ∧
    List.Pairwise (fun t u : ℝ × WithTop ℝ × Airport ℝ =>
        u.1 < t.1 ∨ (t.1 = u.1 ∧ t.2.1 ≤ u.2.1))
      (search_sorted haversine_nm (fun _ _ => 0) [cw_entry] (some "lax") none none
        none) ∧
    search_airports haversine_nm (fun _ _ => 0) [cw_entry] (some "lax") 20 none none
        none =
      ((search_sorted haversine_nm (fun _ _ => 0) [cw_entry] (some "lax") none none
        none).take 20).map (fun t => t.2.2) :=
  ⟨(c3_filter_sort_truncate (fun _ _ => 0) [cw_entry] none 20 1 2 5 none none none).1,
   (c3_filter_sort_truncate (fun _ _ => 0) [cw_entry] none 20 1 2 5 none none
     none).2.1 rfl,
   (c3_filter_sort_truncate (fun _ _ => 0) [cw_entry] (some "lax") 20 1 2 5 none none
     none).2.2.1 (by decide),
   (c3_filter_sort_truncate (fun _ _ => 0) [cw_entry] (some "lax") 20 1 2 5 none none
     none).2.2.2 (by decide)⟩

end Aviation
